import Mathlib

/-!
Verification of the RSE3204 wireless-localisation pair (master.py / slave.py).

The two programs exchange newline-delimited JSON over a serial line and
compute an angle with the law of cosines.  The embedding below models:

* the JSON values that `json.loads` can produce from one line (`Json`);
  the byte/text layer (`json.dumps`/`json.loads`, UTF-8 decoding) is the
  Python standard library, not repository code, and is abstracted as the
  pair "a line either parses to a `Json` value or fails" (`Wire`);
* the three wire messages (`Message`) and how each program builds and
  dispatches them (`encode_message`, `decode_message`, `slave_handle`,
  `fetch_step`);
* the geometry helpers of master.py (`compute_angle`, `validate_triangle`,
  and the gating in `run_master`, `master_theta`).  Distances are modelled
  as rationals (every Python float is a rational); the transcendental step
  `math.acos`/`math.degrees` is modelled by `Real.arccos` on the cast.
-/

namespace Loc

/-- A parsed JSON value, as Python's `json.loads` returns it for one line:
`null`, booleans, numbers, strings, arrays, and objects (dicts). Numbers are
modelled as rationals; Python floats are a subset of the rationals. -/
inductive Json where
  | null : Json
  | bool (b : Bool) : Json
  | num (q : ℚ) : Json
  | str (s : String) : Json
  | arr (elems : List Json) : Json
  | obj (fields : List (String × Json)) : Json

/-- Lookup in a parsed JSON object, mirroring Python dict semantics where a
later duplicate key overrides an earlier one (`json.loads` keeps the last). -/
def dictGet : List (String × Json) → String → Option Json
  | [], _ => none
  | (k, v) :: rest, key =>
    match dictGet rest key with
    | some v2 => some v2
    | none => if k = key then some v else none

/-- The result of reading one non-empty line and running it through
`raw.decode().strip()` and `json.loads`: either a parsed `Json` value, or a
failure (`UnicodeDecodeError` / `json.JSONDecodeError`). -/
inductive Wire where
  | undecodable : Wire
  | value (j : Json) : Wire

/-- The three message kinds of the protocol (spec data model): the request,
the distance response, and the error response. -/
inductive Message where
  | request : Message
  | distanceResponse (distance : ℚ) : Message
  | errorResponse (reason : String) : Message
  deriving DecidableEq

/-- Encoding of each message as the JSON object the source builds:
`json.dumps({"cmd": "GET_DISTANCE"})` (master.py line 49),
`json.dumps({"dxb": dxb})` (slave.py line 68),
`json.dumps({"error": "unknown command"})` (slave.py line 75). -/
def encode_message : Message → Json
  | .request => .obj [("cmd", .str "GET_DISTANCE")]
  | .distanceResponse d => .obj [("dxb", .num d)]
  | .errorResponse r => .obj [("error", .str r)]

/-- Python's `request.get("cmd") == "GET_DISTANCE"` (slave.py line 63): true
exactly when the looked-up value is the string GET_DISTANCE; comparing any
non-string value with a string is `False` in Python. -/
def isGetDistance : Option Json → Bool
  | some (.str s) => s = "GET_DISTANCE"
  | _ => false

/-- Python's `float(v)` applied to a parsed JSON value (master.py line 65):
numbers pass through exactly, booleans coerce to 1/0, and `null`, arrays and
objects raise `TypeError` (modelled as `none`).  Python's `float` also parses
numeric strings; no message of the protocol carries a string distance and no
theorem below depends on that branch, which is likewise mapped to `none`. -/
def pyFloat : Json → Option ℚ
  | .num q => some q
  | .bool b => some (if b then 1 else 0)
  | _ => none

/-- The codec's decode (spec §4.2), as the two programs implement it inline:
the Responder recognises a request by `request.get("cmd") == "GET_DISTANCE"`
(slave.py line 63); the Initiator recognises an error response by
`"error" in response` and otherwise reads `float(response["dxb"])`
(master.py lines 62-65, checking `error` first).  Non-object values and
objects fitting no shape decode to `none`. -/
def decode_message (j : Json) : Option Message :=
  match j with
  | .obj fields =>
    if isGetDistance (dictGet fields "cmd") then some .request
    else
      match dictGet fields "error" with
      | some (.str r) => some (.errorResponse r)
      | some _ => none
      | none =>
        match dictGet fields "dxb" with
        | some v =>
          match pyFloat v with
          | some q => some (.distanceResponse q)
          | none => none
        | none => none
  | _ => none

/-- What one iteration of the Responder loop does with one read result
(slave.py lines 48-78): time out and re-loop, discard a bad line, write one
response line, or raise an uncaught exception (which leaves the loop). -/
inductive SlaveStep where
  | timeout : SlaveStep
  | discard : SlaveStep
  | respond (line : Json) : SlaveStep
  | crash : SlaveStep

/-- One iteration of the Responder loop (slave.py lines 48-78). `raw` is the
read result (`none` = empty read / timeout) and `dxb` the distance the
operator supplies when a request arrives.  An empty read logs and re-loops
(line 51); a line that fails decoding is caught and ignored (lines 55-59);
a parsed object is dispatched on its `cmd` field (line 63), answering either
the distance response or the unknown-command error; a parsed non-object
value reaches `request.get("cmd")` on a value with no `.get` attribute, an
`AttributeError` no handler catches. -/
def slave_handle (raw : Option Wire) (dxb : ℚ) : SlaveStep :=
  match raw with
  | none => .timeout
  | some .undecodable => .discard
  | some (.value j) =>
    match j with
    | .obj fields =>
      if isGetDistance (dictGet fields "cmd") then
        .respond (encode_message (.distanceResponse dxb))
      else
        .respond (encode_message (.errorResponse "unknown command"))
    | _ => .crash

/-- The line a step writes to the transport, if any: only `respond` writes. -/
def stepSends : SlaveStep → Option Json
  | .respond line => some line
  | _ => none

/-- Whether the listening loop continues after the step: every step except an
uncaught exception re-loops. -/
def stepContinues : SlaveStep → Bool
  | .crash => false
  | _ => true

/-- Outcome of one Initiator exchange (master.py lines 47-67): reading
nothing raises `TimeoutError`; an undecodable reply raises the decode
error (malformed response); a reply with an `error` field raises
`RuntimeError` carrying that field's value; a reply with a numeric `dxb`
field succeeds with that distance; anything else raises an uncaught
`TypeError`/`KeyError`/`ValueError`. -/
inductive FetchOutcome where
  | noResponse : FetchOutcome
  | malformed : FetchOutcome
  | peerError (reason : Json) : FetchOutcome
  | done (d : ℚ) : FetchOutcome
  | fault : FetchOutcome

/-- One Initiator exchange as a function of the reply line (master.py lines
47-67, `fetch_dxb_from_slave`).  `raw = none` is the empty read (timeout).
On a parsed object the code first tests `"error" in response` and raises with
the reason when present, then evaluates `float(response["dxb"])`.  A parsed
non-object reply faults: on a string or list, either the containment test
selects the error branch whose subscript `response["error"]` raises
`TypeError`, or subscripting `response["dxb"]` raises; on a number, boolean
or `null`, the containment test itself raises `TypeError`. -/
def fetch_step (raw : Option Wire) : FetchOutcome :=
  match raw with
  | none => .noResponse
  | some .undecodable => .malformed
  | some (.value j) =>
    match j with
    | .obj fields =>
      match dictGet fields "error" with
      | some reason => .peerError reason
      | none =>
        match dictGet fields "dxb" with
        | some v =>
          match pyFloat v with
          | some q => .done q
          | none => .fault
        | none => .fault
    | _ => .fault

/-- Triangle inequality check of master.py lines 88-90:
`(dxa + dxb > dab) and (dxa + dab > dxb) and (dxb + dab > dxa)`. -/
def validate_triangle (dxa dxb dab : ℚ) : Bool :=
  decide (dxa + dxb > dab) && decide (dxa + dab > dxb) && decide (dxb + dab > dxa)

/-- The cosine of the angle before clamping, master.py line 83:
`(dxa**2 + dxb**2 - dab**2) / (2 * dxa * dxb)`. -/
def cosTheta (dxa dxb dab : ℚ) : ℚ :=
  (dxa ^ 2 + dxb ^ 2 - dab ^ 2) / (2 * dxa * dxb)

/-- The clamp of master.py line 84: `max(-1.0, min(1.0, cos_theta))`. -/
def clamp (x : ℚ) : ℚ :=
  max (-1) (min 1 x)

/-- The angle computation of master.py lines 72-85 (`compute_angle`): `None`
when either ray degenerates (`dxa == 0 or dxb == 0`), otherwise
`math.degrees(math.acos(clamped))`, i.e. `arccos(clamped) · 180 / π`. -/
noncomputable def compute_angle (dxa dxb dab : ℚ) : Option ℝ :=
  if dxa = 0 ∨ dxb = 0 then none
  else some (Real.arccos (clamp (cosTheta dxa dxb dab) : ℝ) * 180 / Real.pi)

/-- The gating in `run_master` (master.py lines 139-145): when the triangle
is invalid the angle is reported `None` without calling `compute_angle`;
otherwise the computed angle is reported. -/
noncomputable def master_theta (dxa dxb dab : ℚ) : Option ℝ :=
  if validate_triangle dxa dxb dab then compute_angle dxa dxb dab else none

/-- C3: `validate_triangle` is true iff all three strict triangle
inequalities hold; in particular it accepts (3,4,5) and rejects (1,1,5)
and (0,0,0). -/
theorem validate_triangle_iff :
    (∀ a b c : ℚ, validate_triangle a b c = true ↔ (a + b > c ∧ a + c > b ∧ b + c > a)) ∧
    validate_triangle 3 4 5 = true ∧
    validate_triangle 1 1 5 = false ∧
    validate_triangle 0 0 0 = false := by
  refine ⟨fun a b c => ?_, by norm_num [validate_triangle], by norm_num [validate_triangle],
    by norm_num [validate_triangle]⟩
  simp [validate_triangle, and_assoc]

/-- C4: `compute_angle` returns the undefined marker whenever either of the
two rays from the device has length zero. -/
theorem compute_angle_zero_side :
    (∀ dxb dab : ℚ, compute_angle 0 dxb dab = none) ∧
    (∀ dxa dab : ℚ, compute_angle dxa 0 dab = none) := by
  constructor <;> intro x y <;> simp [compute_angle]

/-- C7: decoding an encoded message recovers the message exactly, the
numeric distance included (round-trip of the codec). -/
theorem decode_encode_message (m : Message) :
    decode_message (encode_message m) = some m := by
  cases m <;> simp [encode_message, decode_message, dictGet, isGetDistance, pyFloat]

/-- C6: the three Initiator outcomes: an empty read is `noResponse`; an
encoded error response yields `peerError` carrying the reason; an encoded
distance response yields `done` with that distance. -/
theorem fetch_step_outcomes :
    fetch_step none = .noResponse ∧
    (∀ r : String, fetch_step (some (.value (encode_message (.errorResponse r)))) =
      .peerError (.str r)) ∧
    (∀ d : ℚ, fetch_step (some (.value (encode_message (.distanceResponse d)))) =
      .done d) := by
  refine ⟨rfl, fun r => ?_, fun d => ?_⟩ <;>
    simp [fetch_step, encode_message, dictGet, pyFloat]

/-- C9: a line that is not valid structured text is discarded: the Responder
sends nothing and the loop continues. -/
theorem slave_discards_undecodable (d : ℚ) :
    slave_handle (some .undecodable) d = .discard ∧
    stepSends (slave_handle (some .undecodable) d) = none ∧
    stepContinues (slave_handle (some .undecodable) d) = true :=
  ⟨rfl, rfl, rfl⟩

/-- C5 (failing input): the line `42` is valid JSON but not an object;
`request.get("cmd")` raises an uncaught `AttributeError`, so the Responder
does not respond, does not discard, and its listening loop terminates. -/
theorem slave_crashes_on_json_number :
    slave_handle (some (.value (.num 42))) 0 = .crash ∧
    stepContinues (slave_handle (some (.value (.num 42))) 0) = false :=
  ⟨rfl, rfl⟩

/-- C1: for positive rays and a non-negative baseline, `compute_angle`
computes the law-of-cosines cosine, clamps it into `[-1, 1]`, and returns
its arccosine in degrees; any angle it returns lies in `[0, 180]` (clamping
keeps the arccosine argument in its domain, so no NaN can arise). -/
theorem compute_angle_spec (dxa dxb dab : ℚ) (h1 : 0 < dxa) (h2 : 0 < dxb)
    (h3 : 0 ≤ dab) :
    compute_angle dxa dxb dab =
      some (Real.arccos (clamp (cosTheta dxa dxb dab) : ℝ) * 180 / Real.pi) ∧
    -1 ≤ clamp (cosTheta dxa dxb dab) ∧ clamp (cosTheta dxa dxb dab) ≤ 1 ∧
    ∀ θ : ℝ, compute_angle dxa dxb dab = some θ → 0 ≤ θ ∧ θ ≤ 180 := by
  have hne : ¬(dxa = 0 ∨ dxb = 0) := not_or.mpr ⟨h1.ne', h2.ne'⟩
  have heq : compute_angle dxa dxb dab =
      some (Real.arccos (clamp (cosTheta dxa dxb dab) : ℝ) * 180 / Real.pi) := by
    simp only [compute_angle, if_neg hne]
  refine ⟨heq, le_max_left _ _, max_le (by norm_num) (min_le_left _ _), ?_⟩
  intro θ hθ
  rw [heq, Option.some_inj] at hθ
  subst hθ
  have hπ := Real.pi_pos
  have harc0 := Real.arccos_nonneg ((clamp (cosTheta dxa dxb dab) : ℚ) : ℝ)
  have harcπ := Real.arccos_le_pi ((clamp (cosTheta dxa dxb dab) : ℚ) : ℝ)
  constructor
  · exact div_nonneg (mul_nonneg harc0 (by norm_num)) hπ.le
  · calc Real.arccos (clamp (cosTheta dxa dxb dab) : ℝ) * 180 / Real.pi
        ≤ Real.pi * 180 / Real.pi := by gcongr
    _ = 180 := by rw [mul_comm, mul_div_assoc, div_self Real.pi_ne_zero, mul_one]

/-- C1 witness at the concrete input (3, 4, 5). -/
theorem compute_angle_spec_witness :
    (0 : ℚ) < 3 ∧ (0 : ℚ) < 4 ∧ (0 : ℚ) ≤ 5 ∧
    (compute_angle 3 4 5 =
       some (Real.arccos (clamp (cosTheta 3 4 5) : ℝ) * 180 / Real.pi) ∧
     -1 ≤ clamp (cosTheta 3 4 5) ∧ clamp (cosTheta 3 4 5) ≤ 1 ∧
     ∀ θ : ℝ, compute_angle 3 4 5 = some θ → 0 ≤ θ ∧ θ ≤ 180) :=
  ⟨by norm_num, by norm_num, by norm_num,
    compute_angle_spec 3 4 5 (by norm_num) (by norm_num) (by norm_num)⟩

/-- C2: when the triangle check fails the Master reports the angle as
undefined without consulting `compute_angle`; at (1, 1, 3) the reported
result is `none` even though raw `compute_angle` would return 180°. -/
theorem master_gating :
    (∀ a b c : ℚ, validate_triangle a b c = false → master_theta a b c = none) ∧
    master_theta 1 1 3 = none ∧
    compute_angle 1 1 3 = some 180 := by
  refine ⟨fun a b c h => by simp [master_theta, h], ?_, ?_⟩
  · have h : validate_triangle 1 1 3 = false := by norm_num [validate_triangle]
    simp [master_theta, h]
  · have hc : clamp (cosTheta 1 1 3) = -1 := by
      norm_num [clamp, cosTheta, min_def, max_def]
    simp only [compute_angle, hc]
    rw [if_neg (by norm_num)]
    push_cast
    rw [Real.arccos_neg_one, mul_comm, mul_div_assoc, div_self Real.pi_ne_zero, mul_one]

/-- C8 counterexample: at the empty JSON object (no command field) the
Responder does not discard the line; it sends the unknown-command error
response. -/
theorem slave_responds_to_missing_cmd :
    slave_handle (some (.value (.obj []))) 0 ≠ .discard ∧
    slave_handle (some (.value (.obj []))) 0 =
      .respond (encode_message (.errorResponse "unknown command")) :=
  ⟨fun h => by simp [slave_handle, dictGet, isGetDistance] at h, rfl⟩

/-- C8 amended: a parsed object whose `cmd` lookup is not the string
GET_DISTANCE (a missing command field included) is answered with the
unknown-command error response, and the loop continues. -/
theorem slave_unknown_command_response (fields : List (String × Json)) (d : ℚ)
    (h : isGetDistance (dictGet fields "cmd") = false) :
    slave_handle (some (.value (.obj fields))) d =
      .respond (encode_message (.errorResponse "unknown command")) ∧
    stepContinues (slave_handle (some (.value (.obj fields))) d) = true := by
  simp [slave_handle, h, stepContinues]

/-- C8 amended witness at the empty object. -/
theorem slave_unknown_command_response_witness :
    isGetDistance (dictGet [] "cmd") = false ∧
    (slave_handle (some (.value (.obj []))) 0 =
       .respond (encode_message (.errorResponse "unknown command")) ∧
     stepContinues (slave_handle (some (.value (.obj []))) 0) = true) :=
  ⟨rfl, slave_unknown_command_response [] 0 rfl⟩

/-- C10: a successful triangle validation forces both rays positive, so
`compute_angle` returns a defined angle, never the undefined marker. -/
theorem validate_implies_defined (dxa dxb dab : ℚ)
    (h : validate_triangle dxa dxb dab = true) :
    ∃ θ : ℝ, compute_angle dxa dxb dab = some θ := by
  simp only [validate_triangle, Bool.and_eq_true, decide_eq_true_eq] at h
  obtain ⟨⟨h1, h2⟩, h3⟩ := h
  have ha : dxa ≠ 0 := ne_of_gt (by linarith)
  have hb : dxb ≠ 0 := ne_of_gt (by linarith)
  refine ⟨Real.arccos (clamp (cosTheta dxa dxb dab) : ℝ) * 180 / Real.pi, ?_⟩
  simp [compute_angle, ha, hb]

/-- C10 witness at the concrete input (3, 4, 5). -/
theorem validate_implies_defined_witness :
    validate_triangle 3 4 5 = true ∧ ∃ θ : ℝ, compute_angle 3 4 5 = some θ :=
  ⟨by norm_num [validate_triangle],
    validate_implies_defined 3 4 5 (by norm_num [validate_triangle])⟩

end Loc
